import Mathlib

/-!
Verification of the share-link-gated view tracking and analytics aggregation
pipeline of the product-demo platform.

The development shallowly embeds the TypeScript sources:
- src/lib/analytics.ts (class AnalyticsService): trackView, updateViewProgress,
  getUserAnalytics, getDemoAnalytics, getViewsByDay, getTopDemos,
  getDeviceTypes, getLocations, getEmptyAnalytics;
- the shared demo viewer component (SharedDemoViewer): validateAndFetchDemo,
  trackView, updateViewProgress;
- the public demo viewer component (DemoViewer): trackView.

Modelling conventions:
- Instants are minutes since an epoch, as integers.  A JavaScript Date holds
  such an instant; toISOString renders it in UTC, so the 10-character date
  prefix of an ISO string determines and is determined by the UTC day index
  (floor of the instant divided by the 1440 minutes of a day).
  toLocaleDateString renders the local calendar date, i.e. the day index of
  the instant shifted by the environment's timezone offset; we represent the
  rendered day label by that local day index (within any trailing window of at
  most 90 days these labels are pairwise distinct, so the abstraction is
  injective where it is used).  Date.setDate(getDate() - i) subtracts i local
  days, which under a fixed timezone offset is i * 1440 minutes.
- The supabase client reports failures in-band as a data/error pair rather
  than by throwing; fallible store operations therefore take the outcome of
  the underlying database call as an explicit argument (none = success,
  some failure = error), and embedded functions return plain values: the
  try/catch wrappers of the source make every operation total.
- JavaScript NaN can arise in getUserAnalytics/getDemoAnalytics (dividing the
  undefined result of a short-circuited optional chain); averages are
  therefore modelled as Option Rat, with none standing for NaN.
- The mock deviceTypes/locations breakdowns multiply by decimal constants; we
  compute them in exact rational arithmetic (the binary-double rounding of
  0.65 etc. is not modelled; no claim concerns these mock fields).
-/

/-- Length of a calendar day in minutes. -/
def minutesPerDay : Int := 1440

/-- The UTC calendar day index of an instant: this is what the 10-character
date prefix of toISOString determines. -/
def utcDay (t : Int) : Int := t.fdiv minutesPerDay

/-- The local calendar day index of an instant under timezone offset tz
(minutes east of UTC): this is what toLocaleDateString renders. -/
def localDay (t tz : Int) : Int := (t + tz).fdiv minutesPerDay

/-- A row of the demos table (the fields the analytics pipeline reads). -/
structure Demo where
  id : String
  title : String
  owner_id : String
deriving Repr, DecidableEq

/-- A row of the demo_steps table (the fields the pipeline reads). -/
structure DemoStep where
  id : Nat
  demo_id : String
  order_index : Int
deriving Repr, DecidableEq

/-- A row of the share_links table. -/
structure ShareLink where
  id : Nat
  demo_id : String
  token : String
  expires_at : Option Int
  is_active : Bool
  view_count : Int
  max_views : Option Int
deriving Repr, DecidableEq

/-- A row of the demo_views table (one ViewRecord per playback session). -/
structure ViewRecord where
  id : Nat
  demo_id : String
  share_link_id : Option Nat
  viewer_ip : String
  viewer_location : Option String
  viewed_at : Int
  time_spent : Int
  completed_steps : Int
  total_steps : Int
deriving Repr, DecidableEq

/-- An entry of the viewsByDay series: date is the rendered local day label,
views the bucket count. -/
structure DayEntry where
  date : Int
  views : Nat
deriving Repr, DecidableEq

/-- An entry of the topDemos ranking. -/
structure DemoCount where
  title : String
  id : String
  views : Nat
deriving Repr, DecidableEq

/-- An entry of the mock device-type breakdown. -/
structure DeviceCount where
  name : String
  value : Int
deriving Repr, DecidableEq

/-- An entry of the mock location breakdown. -/
structure LocationCount where
  country : String
  views : Int
deriving Repr, DecidableEq

/-- The AnalyticsData record returned by the aggregator.  avgTimeSpent is an
Option Rat because the source can produce NaN (none) on a failed views
fetch. -/
structure AnalyticsData where
  totalViews : Nat
  uniqueViewers : Nat
  avgTimeSpent : Option Rat
  completionRate : Rat
  viewsByDay : List DayEntry
  topDemos : List DemoCount
  deviceTypes : List DeviceCount
  locations : List LocationCount
deriving Repr, DecidableEq

/-- Math.round for the nonnegative rationals produced by the mock
breakdowns: floor of x + 1/2. -/
def jsRound (q : Rat) : Int := ⌊q + 1/2⌋

/-- AnalyticsService.getViewsByDay.  The loop runs i from days-1 down to 0;
for each i it takes the date now minus i days, renders its local label, and
counts the fetched records whose viewed_at ISO string starts with that date's
ISO date prefix — i.e. whose UTC day equals that date's UTC day. -/
def AnalyticsService.getViewsByDay (views : List ViewRecord) (days : Nat)
    (now tz : Int) : List DayEntry :=
  ((List.range days).reverse).map (fun (i : Nat) =>
    let d := now - (i : Int) * minutesPerDay
    { date := localDay d tz
      views := (views.filter (fun v => utcDay v.viewed_at == utcDay d)).length })

/-- Insert a per-demo count into a list sorted by descending views, before
the first element whose count does not exceed it (so an element inserted
later than the list's elements, i.e. occurring earlier in the original
order, lands before its ties). -/
def insertByViewsDesc (x : DemoCount) : List DemoCount → List DemoCount
  | [] => [x]
  | y :: ys => if y.views > x.views then y :: insertByViewsDesc x ys else x :: y :: ys

/-- Stable sort by descending views.  The source sorts with the comparator
(a, b) =&gt; b.views - a.views via Array.prototype.sort, which ECMAScript
requires to be stable; for a comparator induced by a total preorder every
stable sort returns the same list, and this insertion sort realises it. -/
def sortByViewsDesc : List DemoCount → List DemoCount
  | [] => []
  | x :: xs => insertByViewsDesc x (sortByViewsDesc xs)

/-- AnalyticsService.getTopDemos: per-demo view counts in the order of the
fetched demos list, sorted by descending count (stable), first 5. -/
def AnalyticsService.getTopDemos (views : List ViewRecord) (demos : List Demo) :
    List DemoCount :=
  (sortByViewsDesc (demos.map (fun d =>
    { title := d.title, id := d.id
      views := (views.filter (fun v => v.demo_id == d.id)).length }))).take 5

/-- AnalyticsService.getDeviceTypes (mock data, kept for faithfulness). -/
def AnalyticsService.getDeviceTypes (views : List ViewRecord) : List DeviceCount :=
  let total : Rat := if views.length == 0 then 1 else (views.length : Rat)
  [ { name := "Desktop", value := jsRound (total * (65/100)) },
    { name := "Mobile", value := jsRound (total * (25/100)) },
    { name := "Tablet", value := jsRound (total * (10/100)) } ]

/-- AnalyticsService.getLocations (mock data, kept for faithfulness). -/
def AnalyticsService.getLocations (views : List ViewRecord) : List LocationCount :=
  let countries := ["United States", "United Kingdom", "Germany", "France", "Canada"]
  ((countries.enum).map (fun ci =>
    { country := ci.2
      views := ⌊(views.length : Rat) * (30/100 - (ci.1 : Rat) * (5/100))⌋ })).filter
    (fun l => l.views > 0)

/-- AnalyticsService.getEmptyAnalytics. -/
def AnalyticsService.getEmptyAnalytics : AnalyticsData :=
  { totalViews := 0
    uniqueViewers := 0
    avgTimeSpent := some 0
    completionRate := 0
    viewsByDay := []
    topDemos := []
    deviceTypes := []
    locations := [] }

/-- Number of days of a timeRange argument: 7d gives 7, 30d gives 30,
anything else 90. -/
def daysOfTimeRange (timeRange : String) : Nat :=
  if timeRange == "7d" then 7 else if timeRange == "30d" then 30 else 90

/-- AnalyticsService.getUserAnalytics as a function of the two fetch results:
the user's demos (none = fetch error, mirrored by the source's null) and the
view records within the window (already filtered server-side by demo ids and
viewed_at lower bound).  When there are no demos the empty analytics object
is returned; when the views fetch fails the optional chains short-circuit:
counts become 0, the average becomes NaN (none), and the remaining fields are
computed from an empty record list. -/
def AnalyticsService.getUserAnalytics (demos : Option (List Demo))
    (views : Option (List ViewRecord)) (timeRange : String) (now tz : Int) :
    AnalyticsData :=
  let days := daysOfTimeRange timeRange
  match demos with
  | none => AnalyticsService.getEmptyAnalytics
  | some ds =>
    if ds.length == 0 then AnalyticsService.getEmptyAnalytics
    else
      let totalViews := (views.map List.length).getD 0
      let uniqueViewers :=
        (views.map (fun l => (l.map (fun v => v.viewer_ip)).eraseDups.length)).getD 0
      let avgTimeSpent : Option Rat :=
        views.map (fun l =>
          (l.map (fun v => (v.time_spent : Rat))).sum /
            (if totalViews == 0 then 1 else (totalViews : Rat)))
      let completedViews :=
        (views.map (fun l =>
          (l.filter (fun v => v.completed_steps == v.total_steps)).length)).getD 0
      let completionRate : Rat :=
        if totalViews > 0 then ((completedViews : Rat) / (totalViews : Rat)) * 100 else 0
      { totalViews := totalViews
        uniqueViewers := uniqueViewers
        avgTimeSpent := avgTimeSpent
        completionRate := completionRate
        viewsByDay := AnalyticsService.getViewsByDay (views.getD []) days now tz
        topDemos := AnalyticsService.getTopDemos (views.getD []) ds
        deviceTypes := AnalyticsService.getDeviceTypes (views.getD [])
        locations := AnalyticsService.getLocations (views.getD []) }

/-- AnalyticsService.getDemoAnalytics as a function of the two fetch results
for one demo. -/
def AnalyticsService.getDemoAnalytics (views : Option (List ViewRecord))
    (demo : Option Demo) (demoId : String) (timeRange : String) (now tz : Int) :
    AnalyticsData :=
  let days := daysOfTimeRange timeRange
  let totalViews := (views.map List.length).getD 0
  let uniqueViewers :=
    (views.map (fun l => (l.map (fun v => v.viewer_ip)).eraseDups.length)).getD 0
  let avgTimeSpent : Option Rat :=
    views.map (fun l =>
      (l.map (fun v => (v.time_spent : Rat))).sum /
        (if totalViews == 0 then 1 else (totalViews : Rat)))
  let completedViews :=
    (views.map (fun l =>
      (l.filter (fun v => v.completed_steps == v.total_steps)).length)).getD 0
  let completionRate : Rat :=
    if totalViews > 0 then ((completedViews : Rat) / (totalViews : Rat)) * 100 else 0
  { totalViews := totalViews
    uniqueViewers := uniqueViewers
    avgTimeSpent := avgTimeSpent
    completionRate := completionRate
    viewsByDay := AnalyticsService.getViewsByDay (views.getD []) days now tz
    topDemos :=
      match demo with
      | some d => [{ title := d.title, id := demoId, views := totalViews }]
      | none => []
    deviceTypes := AnalyticsService.getDeviceTypes (views.getD [])
    locations := AnalyticsService.getLocations (views.getD []) }

/-- Outcome of a fallible database call: the supabase client reports an error
value rather than throwing. -/
inductive DBErr
  | failure
deriving Repr, DecidableEq

/-- The viewerData argument of AnalyticsService.trackView. -/
structure ViewerData where
  ip : Option String
  location : Option String
  totalSteps : Option Int
deriving Repr, DecidableEq

/-- JavaScript x || d for an optional string x: null and the empty string are
falsy. -/
def jsOrString (o : Option String) (d : String) : String :=
  match o with
  | some s => if s == "" then d else s
  | none => d

/-- The database state the pipeline touches. -/
structure Store where
  demos : List Demo
  demo_steps : List DemoStep
  share_links : List ShareLink
  demo_views : List ViewRecord
deriving Repr, DecidableEq

/-- Lookup of a share link row by primary key. -/
def lookupLink (s : Store) (id : Nat) : Option ShareLink :=
  s.share_links.find? (fun l => l.id == id)

/-- The share-link query of validateAndFetchDemo: token and is_active match,
single row (the token column is unique, so at most one row matches and find?
returns it; none mirrors the error of .single() on an empty result). -/
def fetchShareLink (s : Store) (token : String) : Option ShareLink :=
  s.share_links.find? (fun l => l.token == token && l.is_active)

/-- The demo query: by id, single row (id is the primary key). -/
def fetchDemo (s : Store) (id : String) : Option Demo :=
  s.demos.find? (fun d => d.id == id)

/-- Insert a demo step into a list sorted by ascending order_index. -/
def insertByOrderIndex (x : DemoStep) : List DemoStep → List DemoStep
  | [] => [x]
  | y :: ys => if y.order_index < x.order_index then y :: insertByOrderIndex x ys
               else x :: y :: ys

/-- Stable sort of demo steps by ascending order_index. -/
def sortByOrderIndex : List DemoStep → List DemoStep
  | [] => []
  | x :: xs => insertByOrderIndex x (sortByOrderIndex xs)

/-- The steps query: all steps of the demo ordered by ascending order_index. -/
def fetchSteps (s : Store) (demoId : String) : List DemoStep :=
  sortByOrderIndex (s.demo_steps.filter (fun st => st.demo_id == demoId))

/-- AnalyticsService.trackView: builds the view record (share_link_id null
when absent, viewer_ip defaulting to unknown, viewed_at now, zero progress,
total_steps from viewerData or 0 — note 0 || 0 is 0, so getD 0 is faithful)
and inserts it.  On an insert error the thrown error is caught and logged and
null is returned; nothing was persisted. -/
def AnalyticsService.trackView (s : Store) (demoId : String)
    (shareLinkId : Option Nat) (viewerData : Option ViewerData) (now : Int)
    (newId : Nat) (insertErr : Option DBErr) : Store × Option ViewRecord :=
  let viewRecord : ViewRecord :=
    { id := newId
      demo_id := demoId
      share_link_id := shareLinkId
      viewer_ip := jsOrString (viewerData.bind (fun w => w.ip)) "unknown"
      viewer_location := viewerData.bind (fun w => w.location)
      viewed_at := now
      time_spent := 0
      completed_steps := 0
      total_steps := (viewerData.bind (fun w => w.totalSteps)).getD 0 }
  match insertErr with
  | some _ => (s, none)
  | none => ({ s with demo_views := s.demo_views ++ [viewRecord] }, some viewRecord)

/-- AnalyticsService.updateViewProgress: overwrites time_spent and
completed_steps of the record with the given id.  On an update error the
thrown error is caught and logged; the store is unchanged and nothing
propagates to the caller. -/
def AnalyticsService.updateViewProgress (s : Store) (viewId : Nat)
    (timeSpent completedSteps : Int) (updErr : Option DBErr) : Store :=
  match updErr with
  | some _ => s
  | none =>
    { s with demo_views := s.demo_views.map (fun v =>
        if v.id == viewId then
          { v with time_spent := timeSpent, completed_steps := completedSteps }
        else v) }

/-- The share-link counter write of SharedDemoViewer.trackView: set
view_count to the snapshot's count plus one (view_count is a non-null integer
column defaulting to 0 and set to 0 on insert, so count || 0 is count) on the
row whose id matches the snapshot. -/
def shareLinkIncrementWrite (s : Store) (linkData : ShareLink) : Store :=
  { s with share_links := s.share_links.map (fun l =>
      if l.id == linkData.id then { l with view_count := linkData.view_count + 1 }
      else l) }

/-- SharedDemoViewer.trackView: first the share-link counter write (a failure
is logged and the flow continues), then AnalyticsService.trackView with the
component's steps state; the returned view id (if any) becomes the session's
viewId. -/
def sharedViewerTrackView (s : Store) (componentSteps : List DemoStep)
    (linkData : ShareLink) (now : Int) (newId : Nat)
    (updErr insertErr : Option DBErr) : Store × Option Nat :=
  let s1 :=
    match updErr with
    | some _ => s
    | none => shareLinkIncrementWrite s linkData
  let r := AnalyticsService.trackView s1 linkData.demo_id (some linkData.id)
    (some { ip := some "unknown", location := none,
            totalSteps := some (componentSteps.length : Int) }) now newId insertErr
  (r.1, r.2.map (fun v => v.id))

/-- The user-visible terminal states of validateAndFetchDemo (the setError
messages). -/
inductive SessionError
  | invalidLink
  | linkExpired
  | viewLimitReached
  | demoNotFound
deriving Repr, DecidableEq

/-- The component state of the shared viewer after validateAndFetchDemo. -/
structure SessionState where
  demo : Option Demo
  steps : List DemoStep
  currentStep : Nat
  error : Option SessionError
  shareLink : Option ShareLink
  viewId : Option Nat
deriving Repr, DecidableEq

/-- The state the component mounts with. -/
def initialSessionState : SessionState :=
  { demo := none, steps := [], currentStep := 0, error := none,
    shareLink := none, viewId := none }

/-- The expiry test of validateAndFetchDemo: expires_at is set (truthy) and
strictly before now. -/
def linkExpired (l : ShareLink) (now : Int) : Bool :=
  match l.expires_at with
  | some e => e < now
  | none => false

/-- The view-limit test of validateAndFetchDemo: max_views is truthy (set and
nonzero) and view_count has reached it. -/
def viewLimitReached (l : ShareLink) : Bool :=
  match l.max_views with
  | some m => if m == 0 then false else l.view_count ≥ m
  | none => false

/-- SharedDemoViewer.validateAndFetchDemo: look the link up by token among
active links, fail on expiry, then on the view limit; fetch the demo and its
steps; then track the view.  setSteps only enqueues a state update: the
trackView call in the same run still reads the steps state captured by the
mounting render, which is the initial empty list, so the component state
passed to sharedViewerTrackView is initialSessionState.steps. -/
def validateAndFetchDemo (s : Store) (token : String) (now : Int) (newId : Nat)
    (updErr insertErr : Option DBErr) : Store × SessionState :=
  let st := initialSessionState
  match fetchShareLink s token with
  | none => (s, { st with error := some SessionError.invalidLink })
  | some linkData =>
    if linkExpired linkData now then
      (s, { st with error := some SessionError.linkExpired })
    else if viewLimitReached linkData then
      (s, { st with error := some SessionError.viewLimitReached })
    else
      match fetchDemo s linkData.demo_id with
      | none => (s, { st with shareLink := some linkData,
                              error := some SessionError.demoNotFound })
      | some demoData =>
        let stepsData := fetchSteps s linkData.demo_id
        let r := sharedViewerTrackView s st.steps linkData now newId updErr insertErr
        (r.1, { st with shareLink := some linkData, demo := some demoData,
                        steps := stepsData, viewId := r.2 })

/-- DemoViewer.trackView (the public, non-gated viewer): inserts an anonymous
view record whose total_steps is the length of the component's steps state —
which is still the initial empty list when the mount effect fires the call,
as the steps fetch has not updated the state read by this closure. -/
def demoViewerTrackView (s : Store) (componentSteps : List DemoStep)
    (demoId : String) (now : Int) (newId : Nat) (insertErr : Option DBErr) :
    Store :=
  let viewRecord : ViewRecord :=
    { id := newId
      demo_id := demoId
      share_link_id := none
      viewer_ip := "anonymous"
      viewer_location := none
      viewed_at := now
      time_spent := 0
      completed_steps := 0
      total_steps := (componentSteps.length : Int) }
  match insertErr with
  | some _ => s
  | none => { s with demo_views := s.demo_views ++ [viewRecord] }

/-- The viewsByDay computation as the specification words it, for the
refinement comparison of claim C3: buckets keyed by the viewer's local
calendar date of viewed_at rather than by its UTC date. -/
def viewsByDaySpec (views : List ViewRecord) (days : Nat) (now tz : Int) :
    List DayEntry :=
  ((List.range days).reverse).map (fun (i : Nat) =>
    let d := now - (i : Int) * minutesPerDay
    { date := localDay d tz
      views := (views.filter (fun v => localDay v.viewed_at tz == localDay d tz)).length })

/-- Lexicographic order on character lists by code point, used to compare
demo titles in the ordering the specification words (ascending lexicographic
title order). -/
def charListLe : List Char → List Char → Bool
  | [], _ => true
  | _ :: _, [] => false
  | c :: cs, d :: ds => if c < d then true else if d < c then false else charListLe cs ds

/-- Insertion step for the ordering the specification words for topDemos:
descending views with ties broken by ascending title. -/
def insertByViewsThenTitle (x : DemoCount) : List DemoCount → List DemoCount
  | [] => [x]
  | y :: ys =>
    if y.views > x.views || (y.views == x.views && charListLe y.title.data x.title.data) then
      y :: insertByViewsThenTitle x ys
    else x :: y :: ys

/-- Sort for the ordering the specification words for topDemos. -/
def sortByViewsThenTitle : List DemoCount → List DemoCount
  | [] => []
  | x :: xs => insertByViewsThenTitle x (sortByViewsThenTitle xs)

/-- topDemos as the specification words it, for the refinement comparison of
claim C5: ties broken by ascending demo title. -/
def topDemosSpec (views : List ViewRecord) (demos : List Demo) :
    List DemoCount :=
  (sortByViewsThenTitle (demos.map (fun d =>
    { title := d.title, id := d.id
      views := (views.filter (fun v => v.demo_id == d.id)).length }))).take 5

/-- Concrete demo used by witnesses and counterexamples. -/
def demoOne : Demo := { id := "d1", title := "Demo One", owner_id := "u1" }

/-- Concrete valid share link with zero views and no limits. -/
def linkTok : ShareLink :=
  { id := 1, demo_id := "d1", token := "tok", expires_at := none,
    is_active := true, view_count := 0, max_views := none }

/-- Concrete share link whose expiry (instant 50) has passed at instant 100,
with the view count still below its ceiling. -/
def linkOld : ShareLink :=
  { id := 2, demo_id := "d1", token := "old", expires_at := some 50,
    is_active := true, view_count := 0, max_views := some 10 }

/-- Concrete store: one demo with three steps and the two links above. -/
def demoStore : Store :=
  { demos := [demoOne]
    demo_steps := [ { id := 1, demo_id := "d1", order_index := 0 },
                    { id := 2, demo_id := "d1", order_index := 1 },
                    { id := 3, demo_id := "d1", order_index := 2 } ]
    share_links := [linkTok, linkOld]
    demo_views := [] }

/-- find? commutes with a map that does not change the tested predicate. -/
theorem find?_map_of_pred_invariant {α : Type} (p : α → Bool) (f : α → α)
    (hp : ∀ a, p (f a) = p a) (l : List α) :
    (l.map f).find? p = (l.find? p).map f := by
  induction l with
  | nil => rfl
  | cons x xs ih =>
    by_cases hx : p x = true
    · have hfx : p (f x) = true := by rw [hp x]; exact hx
      simp [List.find?_cons_of_pos, hx, hfx]
    · have hx' : p x = false := by simpa using hx
      have hfx : p (f x) = false := by rw [hp x]; exact hx'
      simp [List.find?_cons_of_neg, hx', hfx, ih]

/-- Claim C1: opening a session through the shared viewer against a valid
share link increments that link's view_count by exactly 1, exactly once for
that session — any later updateProgress or close call (both go through
AnalyticsService.updateViewProgress) leaves share_links untouched. -/
theorem C1_view_count_incremented_once (s : Store) (token : String) (now : Int)
    (newId : Nat) (l : ShareLink) (d : Demo)
    (hfind : fetchShareLink s token = some l)
    (hexp : linkExpired l now = false)
    (hlim : viewLimitReached l = false)
    (hd : fetchDemo s l.demo_id = some d)
    (hlook : lookupLink s l.id = some l) :
    lookupLink (validateAndFetchDemo s token now newId none none).1 l.id
      = some { l with view_count := l.view_count + 1 }
    ∧ ∀ (s2 : Store) (vid : Nat) (t cs : Int) (e : Option DBErr),
        (AnalyticsService.updateViewProgress s2 vid t cs e).share_links
          = s2.share_links := by
  constructor
  · have hstore : (validateAndFetchDemo s token now newId none none).1
        = { shareLinkIncrementWrite s l with
            demo_views := (shareLinkIncrementWrite s l).demo_views ++
              [{ id := newId, demo_id := l.demo_id, share_link_id := some l.id,
                 viewer_ip := "unknown", viewer_location := none,
                 viewed_at := now, time_spent := 0, completed_steps := 0,
                 total_steps := 0 }] } := by
      simp [validateAndFetchDemo, hfind, hexp, hlim, hd, sharedViewerTrackView,
        AnalyticsService.trackView, initialSessionState, jsOrString]
    rw [hstore]
    show (((shareLinkIncrementWrite s l).share_links).find?
      (fun x => x.id == l.id)) = _
    have hinv : ∀ a : ShareLink,
        ((if a.id == l.id then { a with view_count := l.view_count + 1 } else a).id
          == l.id) = (a.id == l.id) := by
      intro a
      by_cases h : a.id == l.id
      · simp [h]
      · simp [h]
    calc ((shareLinkIncrementWrite s l).share_links).find? (fun x => x.id == l.id)
        = ((s.share_links.find? (fun x => x.id == l.id)).map
            (fun a => if a.id == l.id then { a with view_count := l.view_count + 1 }
                      else a)) := by
          exact find?_map_of_pred_invariant _ _ hinv s.share_links
      _ = some { l with view_count := l.view_count + 1 } := by
          have : s.share_links.find? (fun x => x.id == l.id) = some l := hlook
          rw [this]
          simp
  · intro s2 vid t cs e
    cases e with
    | none => rfl
    | some err => rfl

/-- Witness for C1 at the concrete store. -/
theorem C1_witness :
    lookupLink (validateAndFetchDemo demoStore "tok" 100 7 none none).1 1
      = some { linkTok with view_count := 1 } :=
  (C1_view_count_incremented_once demoStore "tok" 100 7 linkTok demoOne
    (by decide) (by decide) (by decide) (by decide) (by decide)).1

/-- Claim C6: for a link whose expiry is set and has passed, the shared
viewer's validation fails with the link-expired error even when view_count is
still below the max_views ceiling, and nothing is written. -/
theorem C6_expiry_precedes_view_limit (s : Store) (token : String)
    (now e m : Int) (newId : Nat) (l : ShareLink) (updErr insertErr : Option DBErr)
    (hfind : fetchShareLink s token = some l)
    (hexp : l.expires_at = some e) (hpast : e < now)
    (_hmax : l.max_views = some m) (_hbelow : l.view_count < m) :
    (validateAndFetchDemo s token now newId updErr insertErr).2.error
        = some SessionError.linkExpired
    ∧ (validateAndFetchDemo s token now newId updErr insertErr).1 = s := by
  have hexpired : linkExpired l now = true := by
    simp [linkExpired, hexp, hpast]
  constructor
  · simp [validateAndFetchDemo, hfind, hexpired]
  · simp [validateAndFetchDemo, hfind, hexpired]

/-- Witness for C6 at the concrete expired link. -/
theorem C6_witness :
    (validateAndFetchDemo demoStore "old" 100 7 none none).2.error
      = some SessionError.linkExpired :=
  (C6_expiry_precedes_view_limit demoStore "old" 100 50 10 7 linkOld none none
    (by decide) (by decide) (by decide) (by decide) (by decide)).1

/-- Claim C7: updateViewProgress is last-write-wins on the mutable fields —
composing two successful updates of the same record equals the second update
alone; the supplied values overwrite with no accumulation (so 42,3 followed
by 50,4 leaves 50 and 4). -/
theorem C7_update_progress_last_write_wins (s : Store) (viewId : Nat)
    (t1 c1 t2 c2 : Int) :
    AnalyticsService.updateViewProgress
        (AnalyticsService.updateViewProgress s viewId t1 c1 none)
        viewId t2 c2 none
      = AnalyticsService.updateViewProgress s viewId t2 c2 none := by
  simp only [AnalyticsService.updateViewProgress, List.map_map]
  congr 1
  apply List.map_congr_left
  intro v _
  by_cases h : v.id == viewId
  · simp [Function.comp, h]
  · simp [Function.comp, h]

/-- Counterexample to claim C2: at the concrete store, open a session whose
view-record insert fails.  No ViewRecord was durably created for the session,
yet the link's view_count has already been incremented to 1 — so the
increment is not performed only after the ViewRecord is durably created. -/
theorem C2_counterexample :
    (validateAndFetchDemo demoStore "tok" 100 7 none (some DBErr.failure)).1.demo_views
        = []
    ∧ (lookupLink
        (validateAndFetchDemo demoStore "tok" 100 7 none (some DBErr.failure)).1
        1).map (fun l => l.view_count) = some 1 := by
  constructor
  · rfl
  · rfl

/-- Claim C2 as amended: in the session-open flow the share-link view_count
increment is performed before the ViewRecord is created (an insert failure
leaves the counter already incremented and no record), and a failed increment
is logged but blocks neither the ViewRecord creation nor playback (the
session ends with no error, the demo loaded and a view id). -/
theorem C2_amended_increment_before_record (s : Store) (token : String)
    (now : Int) (newId : Nat) (l : ShareLink) (d : Demo)
    (hfind : fetchShareLink s token = some l)
    (hexp : linkExpired l now = false)
    (hlim : viewLimitReached l = false)
    (hd : fetchDemo s l.demo_id = some d) :
    ((validateAndFetchDemo s token now newId none (some DBErr.failure)).1.share_links
        = (shareLinkIncrementWrite s l).share_links
      ∧ (validateAndFetchDemo s token now newId none (some DBErr.failure)).1.demo_views
        = s.demo_views)
    ∧ ((validateAndFetchDemo s token now newId (some DBErr.failure) none).1.share_links
        = s.share_links
      ∧ (validateAndFetchDemo s token now newId (some DBErr.failure) none).2.error
        = none
      ∧ (validateAndFetchDemo s token now newId (some DBErr.failure) none).2.demo
        = some d
      ∧ (validateAndFetchDemo s token now newId (some DBErr.failure) none).2.viewId
        = some newId
      ∧ (validateAndFetchDemo s token now newId (some DBErr.failure) none).1.demo_views.length
        = s.demo_views.length + 1) := by
  refine ⟨⟨?_, ?_⟩, ⟨?_, ?_, ?_, ?_, ?_⟩⟩ <;>
    simp [validateAndFetchDemo, hfind, hexp, hlim, hd, sharedViewerTrackView,
      AnalyticsService.trackView, initialSessionState, shareLinkIncrementWrite]

/-- Witness for the amended C2 at the concrete store. -/
theorem C2_amended_witness :
    (validateAndFetchDemo demoStore "tok" 100 7 (some DBErr.failure) none).2.error
      = none :=
  (C2_amended_increment_before_record demoStore "tok" 100 7 linkTok demoOne
    (by decide) (by decide) (by decide) (by decide)).2.2.1

/-- Claim C8 names a real bug: the demo of the concrete store has three
steps, and the shared viewer's UI state receives those three steps, but the
ViewRecord created at session open carries total_steps = 0 — the trackView
closure reads the steps state captured before the fetch, so the snapshot
never equals the demo's step count for any demo with steps. -/
theorem C8_total_steps_not_snapshot :
    (fetchSteps demoStore "d1").length = 3
    ∧ (validateAndFetchDemo demoStore "tok" 100 7 none none).2.steps.length = 3
    ∧ ((validateAndFetchDemo demoStore "tok" 100 7 none none).1.demo_views.map
        (fun v => v.total_steps)) = [0] := by
  refine ⟨?_, ?_, ?_⟩ <;> rfl

/-- Claim C10 names a real bug: the counter write stores the snapshot's count
plus one instead of atomically incrementing the current value.  Two sessions
that both fetched the link at view_count = 0 and then both write (the
interleaving fetch A, fetch B, write A, write B) leave view_count = 1: the
second increment is lost.  With a refreshed snapshot the second write would
store 2, which is what an atomic increment guarantees. -/
theorem C10_concurrent_increment_lost :
    fetchShareLink demoStore "tok" = some linkTok
    ∧ (lookupLink
        (shareLinkIncrementWrite (shareLinkIncrementWrite demoStore linkTok) linkTok)
        1).map (fun l => l.view_count) = some 1
    ∧ (lookupLink
        (shareLinkIncrementWrite (shareLinkIncrementWrite demoStore linkTok)
          { linkTok with view_count := 1 })
        1).map (fun l => l.view_count) = some 2 := by
  refine ⟨?_, ?_, ?_⟩ <;> rfl

/-- Concrete record for the C3 counterexample: viewed at instant 11380, i.e.
21:40 UTC on day 7, which under the UTC+2 offset (tz = 120) is 23:40 local on
local day 7 — while now is instant 11400 (22:00 UTC day 7), which is 00:00
local on local day 8. -/
def vUtcEdge : ViewRecord :=
  { id := 1, demo_id := "d", share_link_id := none, viewer_ip := "x",
    viewer_location := none, viewed_at := 11380, time_spent := 0,
    completed_steps := 0, total_steps := 0 }

/-- Counterexample to claim C3: with the viewer two hours east of UTC, the
record above fell on yesterday's local calendar day, so the claimed
local-date bucketing puts it in the next-to-last entry; the code buckets by
the UTC date prefix of viewed_at and counts it in today's (last) entry. -/
theorem C3_counterexample :
    (AnalyticsService.getViewsByDay [vUtcEdge] 7 11400 120).map
        (fun entry => entry.views) = [0, 0, 0, 0, 0, 0, 1]
    ∧ (viewsByDaySpec [vUtcEdge] 7 11400 120).map
        (fun entry => entry.views) = [0, 0, 0, 0, 0, 1, 0]
    ∧ AnalyticsService.getViewsByDay [vUtcEdge] 7 11400 120
        ≠ viewsByDaySpec [vUtcEdge] 7 11400 120 := by
  refine ⟨by decide, by decide, by decide⟩

/-- Claim C3 as amended: viewsByDay is an ordered sequence of exactly
windowDays entries, oldest first (entry j stands for the day windowDays-1-j
days before today), zero-filled, each entry labelled with the local rendering
of its day and counting the records whose viewed_at date in the UTC calendar
(the ISO-string date prefix — not the local calendar) equals that day. -/
theorem C3_amended_views_by_day_utc_buckets (views : List ViewRecord)
    (days : Nat) (now tz : Int) :
    (AnalyticsService.getViewsByDay views days now tz).length = days
    ∧ AnalyticsService.getViewsByDay views days now tz
      = (List.range days).map (fun j =>
          { date := localDay (now - ((days - 1 - j : Nat) : Int) * minutesPerDay) tz
            views := views.countP (fun v =>
              utcDay v.viewed_at
                == utcDay (now - ((days - 1 - j : Nat) : Int) * minutesPerDay)) }) := by
  constructor
  · simp only [AnalyticsService.getViewsByDay, List.length_map,
      List.length_reverse, List.length_range]
  · apply List.ext_getElem
    · simp only [AnalyticsService.getViewsByDay, List.length_map,
        List.length_reverse, List.length_range]
    · intro i h1 h2
      simp only [AnalyticsService.getViewsByDay, List.getElem_map,
        List.getElem_reverse, List.length_map, List.length_reverse,
        List.length_range, List.getElem_range, List.countP_eq_length_filter]

/-- Inserting into the descending sort permutes the element onto the list. -/
theorem insertByViewsDesc_perm (x : DemoCount) (l : List DemoCount) :
    (insertByViewsDesc x l).Perm (x :: l) := by
  induction l with
  | nil => exact List.Perm.refl _
  | cons y ys ih =>
    by_cases h : y.views > x.views
    · simp only [insertByViewsDesc, if_pos h]
      exact (List.Perm.cons y ih).trans (List.Perm.swap x y ys)
    · simp only [insertByViewsDesc, if_neg h]
      exact List.Perm.refl _

/-- The descending sort permutes its input. -/
theorem sortByViewsDesc_perm (l : List DemoCount) : (sortByViewsDesc l).Perm l := by
  induction l with
  | nil => exact List.Perm.refl _
  | cons x xs ih =>
    simp only [sortByViewsDesc]
    exact (insertByViewsDesc_perm x (sortByViewsDesc xs)).trans (ih.cons x)

/-- Inserting into a views-descending list keeps it views-descending. -/
theorem insertByViewsDesc_pairwise (x : DemoCount) (l : List DemoCount)
    (h : l.Pairwise (fun a b => b.views ≤ a.views)) :
    (insertByViewsDesc x l).Pairwise (fun a b => b.views ≤ a.views) := by
  induction l with
  | nil => simp [insertByViewsDesc]
  | cons y ys ih =>
    rcases List.pairwise_cons.mp h with ⟨hy, hys⟩
    by_cases hgt : y.views > x.views
    · simp only [insertByViewsDesc, if_pos hgt]
      refine List.pairwise_cons.mpr ⟨?_, ih hys⟩
      intro z hz
      have hz' : z = x ∨ z ∈ ys :=
        List.mem_cons.mp ((insertByViewsDesc_perm x ys).mem_iff.mp hz)
      cases hz' with
      | inl he => subst he; exact Nat.le_of_lt hgt
      | inr hm => exact hy z hm
    · simp only [insertByViewsDesc, if_neg hgt]
      refine List.pairwise_cons.mpr ⟨?_, h⟩
      intro z hz
      have hyx : y.views ≤ x.views := Nat.le_of_not_lt hgt
      cases List.mem_cons.mp hz with
      | inl he => subst he; exact hyx
      | inr hm => exact Nat.le_trans (hy z hm) hyx

/-- The descending sort is views-descending (ties allowed). -/
theorem sortByViewsDesc_pairwise (l : List DemoCount) :
    (sortByViewsDesc l).Pairwise (fun a b => b.views ≤ a.views) := by
  induction l with
  | nil => simp [sortByViewsDesc]
  | cons x xs ih => exact insertByViewsDesc_pairwise x _ ih

/-- Inserting passes only over strictly larger counts, so restricting to one
count value puts the inserted element first among its ties. -/
theorem insertByViewsDesc_filter_views (x : DemoCount) (l : List DemoCount)
    (k : Nat) :
    (insertByViewsDesc x l).filter (fun c => c.views == k)
      = if x.views == k then x :: l.filter (fun c => c.views == k)
        else l.filter (fun c => c.views == k) := by
  induction l with
  | nil => cases hx : (x.views == k) <;> simp [insertByViewsDesc, List.filter_cons, hx]
  | cons y ys ih =>
    by_cases hgt : y.views > x.views
    · simp only [insertByViewsDesc, if_pos hgt]
      by_cases hx : x.views = k
      · have hxk : (x.views == k) = true := beq_iff_eq.mpr hx
        have hyk : (y.views == k) = false := by
          apply beq_eq_false_iff_ne.mpr
          omega
        simp [List.filter_cons, hyk, hxk, ih]
      · have hxk : (x.views == k) = false := beq_eq_false_iff_ne.mpr hx
        simp [List.filter_cons, hxk, ih]
    · simp only [insertByViewsDesc, if_neg hgt]
      cases hx : (x.views == k) <;> simp [List.filter_cons, hx]

/-- Stability of the descending sort: within any fixed count value the
original order is preserved. -/
theorem sortByViewsDesc_filter_views (l : List DemoCount) (k : Nat) :
    (sortByViewsDesc l).filter (fun c => c.views == k)
      = l.filter (fun c => c.views == k) := by
  induction l with
  | nil => rfl
  | cons x xs ih =>
    simp only [sortByViewsDesc]
    rw [insertByViewsDesc_filter_views]
    cases hx : (x.views == k) <;> simp [List.filter_cons, hx, ih]

/-- Inserting among all-equal counts prepends. -/
theorem insertByViewsDesc_all_eq (x : DemoCount) (l : List DemoCount) (k : Nat)
    (hx : x.views = k) (h : ∀ c ∈ l, c.views = k) :
    insertByViewsDesc x l = x :: l := by
  cases l with
  | nil => rfl
  | cons y ys =>
    have hy : y.views = k := h y (List.mem_cons_self y ys)
    have hngt : ¬ y.views > x.views := by omega
    simp [insertByViewsDesc, hngt]

/-- Sorting a list whose counts are all equal is the identity. -/
theorem sortByViewsDesc_all_eq (l : List DemoCount) (k : Nat)
    (h : ∀ c ∈ l, c.views = k) : sortByViewsDesc l = l := by
  induction l with
  | nil => rfl
  | cons x xs ih =>
    have hxs : ∀ c ∈ xs, c.views = k := fun c hc => h c (List.mem_cons_of_mem x hc)
    simp only [sortByViewsDesc]
    rw [ih hxs, insertByViewsDesc_all_eq x xs k (h x (List.mem_cons_self x xs)) hxs]

/-- Concrete demo titled Beta, listed first in the fetched demos list. -/
def demoBeta : Demo := { id := "b", title := "Beta", owner_id := "u" }

/-- Concrete demo titled Alpha, listed second. -/
def demoAlpha : Demo := { id := "a", title := "Alpha", owner_id := "u" }

/-- A view record for the tie scenario. -/
def mkTieView (n : Nat) (d : String) : ViewRecord :=
  { id := n, demo_id := d, share_link_id := none, viewer_ip := "x",
    viewer_location := none, viewed_at := 0, time_spent := 0,
    completed_steps := 0, total_steps := 0 }

/-- Ten views of Beta and ten views of Alpha. -/
def tieViews : List ViewRecord :=
  ((List.range 10).map (fun n => mkTieView n "b"))
    ++ ((List.range 10).map (fun n => mkTieView (10 + n) "a"))

/-- Counterexample to claim C5: with ten views each and the demos fetched in
the order Beta, Alpha, the code returns Beta before Alpha (a stable sort with
no tie-break), not the claimed title-ascending order Alpha before Beta. -/
theorem C5_counterexample :
    (AnalyticsService.getTopDemos tieViews [demoBeta, demoAlpha]).map
        (fun c => c.title) = ["Beta", "Alpha"]
    ∧ (AnalyticsService.getTopDemos tieViews [demoBeta, demoAlpha]).map
        (fun c => c.views) = [10, 10]
    ∧ (topDemosSpec tieViews [demoBeta, demoAlpha]).map
        (fun c => c.title) = ["Alpha", "Beta"]
    ∧ AnalyticsService.getTopDemos tieViews [demoBeta, demoAlpha]
        ≠ topDemosSpec tieViews [demoBeta, demoAlpha] := by
  refine ⟨by decide, by decide, by decide, by decide⟩

/-- Claim C5 as amended: topDemos groups the fetched records by demo id in
the order of the fetched demos list, counts per group, sorts descending by
count with ties preserving the demos-list order (the sort is stable; there is
no title tie-break), and takes the first 5: the result is the 5-prefix of a
reordering of the per-demo counts that is descending in views and, within
every fixed count value, keeps the original relative order. -/
theorem C5_amended_ties_keep_demo_order (views : List ViewRecord)
    (demos : List Demo) :
    ∃ sorted : List DemoCount,
      AnalyticsService.getTopDemos views demos = sorted.take 5
      ∧ sorted.Perm (demos.map (fun d =>
          { title := d.title, id := d.id
            views := (views.filter (fun v => v.demo_id == d.id)).length }))
      ∧ sorted.Pairwise (fun a b => b.views ≤ a.views)
      ∧ ∀ k : Nat, sorted.filter (fun c => c.views == k)
          = (demos.map (fun d =>
              { title := d.title, id := d.id
                views := (views.filter (fun v => v.demo_id == d.id)).length })).filter
              (fun c => c.views == k) := by
  refine ⟨_, rfl, ?_, ?_, ?_⟩
  · exact sortByViewsDesc_perm _
  · exact sortByViewsDesc_pairwise _
  · exact fun k => sortByViewsDesc_filter_views _ k

/-- With no fetched records every day bucket of viewsByDay is zero. -/
theorem getViewsByDay_nil_views (days : Nat) (now tz : Int) :
    AnalyticsService.getViewsByDay [] days now tz
      = ((List.range days).reverse).map (fun (i : Nat) =>
          { date := localDay (now - (i : Int) * minutesPerDay) tz, views := 0 }) := rfl

/-- With no fetched records topDemos lists the first five fetched demos in
their original order, each with zero views (all counts tie at zero and the
sort is stable). -/
theorem getTopDemos_nil_views (demos : List Demo) :
    AnalyticsService.getTopDemos [] demos
      = (demos.map (fun x =>
          ({ title := x.title, id := x.id, views := 0 } : DemoCount))).take 5 := by
  have h : ∀ c ∈ demos.map (fun x =>
      ({ title := x.title, id := x.id, views := 0 } : DemoCount)), c.views = 0 := by
    intro c hc
    rcases List.mem_map.mp hc with ⟨x, _, rfl⟩
    rfl
  show (sortByViewsDesc (demos.map (fun x =>
      ({ title := x.title, id := x.id, views := 0 } : DemoCount)))).take 5 = _
  rw [sortByViewsDesc_all_eq _ 0 h]

/-- Counterexample to claim C4: a user-level 7-day summarize call with one
demo (titled Alpha) and zero matching view records returns topDemos listing
that demo with zero views, not the claimed empty list; and on the path with
no demos at all the code returns the empty-analytics object, whose viewsByDay
is the empty list rather than the claimed 7 zero entries. -/
theorem C4_counterexample :
    (AnalyticsService.getUserAnalytics (some [demoAlpha]) (some []) "7d" 0 0).topDemos
        = [{ title := "Alpha", id := "a", views := 0 }]
    ∧ (AnalyticsService.getUserAnalytics (some [demoAlpha]) (some []) "7d" 0 0).topDemos
        ≠ []
    ∧ (AnalyticsService.getUserAnalytics none (some []) "7d" 0 0).viewsByDay = [] := by
  refine ⟨by decide, by decide, by decide⟩

/-- Claim C4 as amended: a summarize call with zero matching records returns
all scalar fields zero, but the shape of viewsByDay and topDemos depends on
the path — a user-level call with no demos (or a failed demos fetch) returns
the empty-analytics object with viewsByDay and topDemos both empty; a
user-level call with demos and an empty record list returns 7 zero day
buckets and topDemos listing up to five of the user's demos with zero views;
a demo-level call with an empty record list returns 7 zero day buckets and
topDemos a single zero-view entry for the demo when its row was found,
otherwise empty. -/
theorem C4_amended_zero_record_summaries (v : Option (List ViewRecord))
    (timeRange : String) (d : Demo) (ds : List Demo) (dem : Option Demo)
    (did : String) (now tz : Int) :
    (AnalyticsService.getUserAnalytics none v timeRange now tz
        = AnalyticsService.getEmptyAnalytics
      ∧ AnalyticsService.getUserAnalytics (some []) v timeRange now tz
        = AnalyticsService.getEmptyAnalytics)
    ∧ ((AnalyticsService.getUserAnalytics (some (d :: ds)) (some []) "7d" now tz).totalViews
          = 0
      ∧ (AnalyticsService.getUserAnalytics (some (d :: ds)) (some []) "7d" now tz).uniqueViewers
          = 0
      ∧ (AnalyticsService.getUserAnalytics (some (d :: ds)) (some []) "7d" now tz).avgTimeSpent
          = some 0
      ∧ (AnalyticsService.getUserAnalytics (some (d :: ds)) (some []) "7d" now tz).completionRate
          = 0
      ∧ (AnalyticsService.getUserAnalytics (some (d :: ds)) (some []) "7d" now tz).viewsByDay
          = ((List.range 7).reverse).map (fun (i : Nat) =>
              { date := localDay (now - (i : Int) * minutesPerDay) tz, views := 0 })
      ∧ (AnalyticsService.getUserAnalytics (some (d :: ds)) (some []) "7d" now tz).topDemos
          = ((d :: ds).map (fun x =>
              ({ title := x.title, id := x.id, views := 0 } : DemoCount))).take 5)
    ∧ ((AnalyticsService.getDemoAnalytics (some []) dem did "7d" now tz).totalViews = 0
      ∧ (AnalyticsService.getDemoAnalytics (some []) dem did "7d" now tz).uniqueViewers = 0
      ∧ (AnalyticsService.getDemoAnalytics (some []) dem did "7d" now tz).avgTimeSpent
          = some 0
      ∧ (AnalyticsService.getDemoAnalytics (some []) dem did "7d" now tz).completionRate = 0
      ∧ (AnalyticsService.getDemoAnalytics (some []) dem did "7d" now tz).viewsByDay
          = ((List.range 7).reverse).map (fun (i : Nat) =>
              { date := localDay (now - (i : Int) * minutesPerDay) tz, views := 0 })
      ∧ (AnalyticsService.getDemoAnalytics (some []) dem did "7d" now tz).topDemos
          = (match dem with
              | some dd => [{ title := dd.title, id := did, views := 0 }]
              | none => [])) := by
  refine ⟨⟨rfl, rfl⟩, ⟨rfl, rfl, ?_, rfl, rfl, ?_⟩, ⟨rfl, rfl, ?_, rfl, rfl, ?_⟩⟩
  · show some ((0 : Rat) / 1) = some 0
    norm_num
  · exact getTopDemos_nil_views (d :: ds)
  · show some ((0 : Rat) / 1) = some 0
    norm_num
  · cases dem <;> rfl

/-- Counterexample to claim C9: a user-level summarize call whose views fetch
fails (demos fetched, views null) does not yield the fully-zeroed summary —
topDemos lists the user's demos with zero counts, viewsByDay has 7 entries,
and avgTimeSpent is NaN (the source divides the undefined result of the
short-circuited optional chain), not 0. -/
theorem C9_counterexample :
    (AnalyticsService.getUserAnalytics (some [demoAlpha]) none "7d" 0 0).avgTimeSpent
        = none
    ∧ (AnalyticsService.getUserAnalytics (some [demoAlpha]) none "7d" 0 0).topDemos
        = [{ title := "Alpha", id := "a", views := 0 }]
    ∧ (AnalyticsService.getUserAnalytics (some [demoAlpha]) none "7d" 0 0).viewsByDay.length
        = 7
    ∧ (AnalyticsService.getUserAnalytics (some [demoAlpha]) none "7d" 0 0)
        ≠ AnalyticsService.getEmptyAnalytics := by
  refine ⟨by decide, by decide, by decide, by decide⟩

/-- Claim C9 as amended: tracking and aggregation never raise — a failed
insert in trackView is caught and logged, the store is unchanged and null is
returned; a failed update in updateViewProgress is caught and logged and the
store is unchanged; a failed demos fetch in getUserAnalytics degrades to the
fully-zeroed empty summary; but a failed views fetch (demos present) degrades
to a summary with zero counts, NaN average, 7 zero day buckets and topDemos
listing up to five of the user's demos with zero views (demo-level: a single
zero-view entry when the demo row was found) — not the fully-zeroed
summary. -/
theorem C9_amended_failures_absorbed (s : Store) (demoId : String)
    (slid : Option Nat) (vd : Option ViewerData) (now : Int) (nid : Nat)
    (s2 : Store) (vid : Nat) (t cs : Int) (e1 e2 : DBErr)
    (v : Option (List ViewRecord)) (timeRange : String) (d : Demo)
    (ds : List Demo) (dem : Option Demo) (did : String) (now2 tz : Int) :
    AnalyticsService.trackView s demoId slid vd now nid (some e1) = (s, none)
    ∧ AnalyticsService.updateViewProgress s2 vid t cs (some e2) = s2
    ∧ AnalyticsService.getUserAnalytics none v timeRange now2 tz
        = AnalyticsService.getEmptyAnalytics
    ∧ ((AnalyticsService.getUserAnalytics (some (d :: ds)) none "7d" now2 tz).totalViews
          = 0
      ∧ (AnalyticsService.getUserAnalytics (some (d :: ds)) none "7d" now2 tz).uniqueViewers
          = 0
      ∧ (AnalyticsService.getUserAnalytics (some (d :: ds)) none "7d" now2 tz).avgTimeSpent
          = none
      ∧ (AnalyticsService.getUserAnalytics (some (d :: ds)) none "7d" now2 tz).completionRate
          = 0
      ∧ (AnalyticsService.getUserAnalytics (some (d :: ds)) none "7d" now2 tz).viewsByDay
          = ((List.range 7).reverse).map (fun (i : Nat) =>
              { date := localDay (now2 - (i : Int) * minutesPerDay) tz, views := 0 })
      ∧ (AnalyticsService.getUserAnalytics (some (d :: ds)) none "7d" now2 tz).topDemos
          = ((d :: ds).map (fun x =>
              ({ title := x.title, id := x.id, views := 0 } : DemoCount))).take 5)
    ∧ ((AnalyticsService.getDemoAnalytics none dem did "7d" now2 tz).totalViews = 0
      ∧ (AnalyticsService.getDemoAnalytics none dem did "7d" now2 tz).avgTimeSpent = none
      ∧ (AnalyticsService.getDemoAnalytics none dem did "7d" now2 tz).topDemos
          = (match dem with
              | some dd => [{ title := dd.title, id := did, views := 0 }]
              | none => [])) := by
  refine ⟨rfl, rfl, rfl, ⟨rfl, rfl, rfl, rfl, rfl, ?_⟩, ⟨rfl, rfl, ?_⟩⟩
  · exact getTopDemos_nil_views (d :: ds)
  · cases dem <;> rfl
